import Mathlib

/-!
Verification of the conversation-orchestration engine of the
`code-editing-agent` repository: a shallow embedding of the Go source
(`main.go` and its test doubles), followed by theorems settling the
specification's claims about tool dispatch, the drive loop, the
interactive input manager, and the file-system tools.
-/

namespace Agent

/-! ## JSON value model

The tool handlers receive their arguments as a raw JSON text and decode it
with the Go standard library (`encoding/json`).  The JSON layer is external
to the repository; we model an argument payload as `Option Json`: `some j`
is a syntactically valid payload with value `j`, `none` is a payload the
parser rejects (Go's `json.Unmarshal` fails before any field is read). -/

inductive Json where
  | null : Json
  | bool (b : Bool) : Json
  | num (n : Int) : Json
  | str (s : String) : Json
  | arr (elems : List Json) : Json
  | obj (fields : List (String × Json)) : Json

/-- Field access in a JSON object, as `encoding/json` resolves keys. -/
def jsonField (fields : List (String × Json)) (key : String) : Option Json :=
  fields.lookup key

/-! ## Data model: turns and tool calls (go-openai records used by the source) -/

/-- Embeds `openai.FunctionCall`: a named tool plus its raw argument payload. -/
structure FunctionCall where
  name : String
  arguments : Option Json

/-- Embeds `openai.ToolCall`: one model-issued request to run a tool.
`type` is the call's tool type tag; the source dispatches only calls whose
tag is the string `"function"`. -/
structure ToolCall where
  id : String
  type : String
  function : FunctionCall

/-- Embeds `openai.ChatCompletionMessage`: one turn of the conversation. -/
structure ChatCompletionMessage where
  role : String
  content : String
  toolCalls : List ToolCall := []
  toolCallID : String := ""

/-! ## Tool input structures (from `main.go`) -/

/-- Embeds `ReadFileInput`. -/
structure ReadFileInput where
  path : String

/-- Embeds `ListDirInput`. -/
structure ListDirInput where
  path : String
  recursive : Bool

/-- Embeds `WriteFileInput`. -/
structure WriteFileInput where
  path : String
  content : String

/-- Decoding of `ReadFileInput` by `json.Unmarshal`: a non-object payload or
a present field of the wrong type is an error; an absent or null field
leaves the Go zero value `""`. -/
def unmarshalReadFileInput : Option Json → Except String ReadFileInput
  | none => .error "invalid character looking for beginning of value"
  | some (.obj fields) =>
    match jsonField fields "path" with
    | some (.str s) => .ok ⟨s⟩
    | some .null => .ok ⟨""⟩
    | some _ => .error "cannot unmarshal field path"
    | none => .ok ⟨""⟩
  | some _ => .error "cannot unmarshal into ReadFileInput"

/-- Decoding of `ListDirInput` by `json.Unmarshal` (same conventions). -/
def unmarshalListDirInput : Option Json → Except String ListDirInput
  | none => .error "invalid character looking for beginning of value"
  | some (.obj fields) =>
    match jsonField fields "path", jsonField fields "recursive" with
    | some (.str s), some (.bool b) => .ok ⟨s, b⟩
    | some (.str s), some .null => .ok ⟨s, false⟩
    | some (.str s), none => .ok ⟨s, false⟩
    | some .null, some (.bool b) => .ok ⟨"", b⟩
    | some .null, some .null => .ok ⟨"", false⟩
    | some .null, none => .ok ⟨"", false⟩
    | none, some (.bool b) => .ok ⟨"", b⟩
    | none, some .null => .ok ⟨"", false⟩
    | none, none => .ok ⟨"", false⟩
    | _, _ => .error "cannot unmarshal field"
  | some _ => .error "cannot unmarshal into ListDirInput"

/-- Decoding of `WriteFileInput` by `json.Unmarshal` (same conventions). -/
def unmarshalWriteFileInput : Option Json → Except String WriteFileInput
  | none => .error "invalid character looking for beginning of value"
  | some (.obj fields) =>
    match jsonField fields "path", jsonField fields "content" with
    | some (.str p), some (.str c) => .ok ⟨p, c⟩
    | some (.str p), some .null => .ok ⟨p, ""⟩
    | some (.str p), none => .ok ⟨p, ""⟩
    | some .null, some (.str c) => .ok ⟨"", c⟩
    | some .null, some .null => .ok ⟨"", ""⟩
    | some .null, none => .ok ⟨"", ""⟩
    | none, some (.str c) => .ok ⟨"", c⟩
    | none, some .null => .ok ⟨"", ""⟩
    | none, none => .ok ⟨"", ""⟩
    | _, _ => .error "cannot unmarshal field"
  | some _ => .error "cannot unmarshal into WriteFileInput"

/-! ## File-system model

The three file tools act on the OS file tree through `os.ReadFile`,
`os.ReadDir`, `filepath.Walk`, `os.MkdirAll` and `os.WriteFile`.  The OS is
external to the repository; we model its state as a finite map from paths
to file contents plus a set of existing directories, and each stdlib call
as a transition on that state with Go's success/failure conditions.  Paths
are taken in the clean relative form the tools use (`a/b/c.txt`, no
trailing or duplicated separators). -/

structure FS where
  files : List (String × String)
  dirs : List String

/-- The empty working tree. -/
def FS.empty : FS := ⟨[], []⟩

/-- Splitting a path on `'/'` (the behavior of `strings`/`path` splitting
on the separator), written structurally on the character list. -/
def splitPathAux : List Char → List Char → List String
  | [], acc => [String.mk acc.reverse]
  | ch :: rest, acc =>
    if ch = '/' then String.mk acc.reverse :: splitPathAux rest []
    else splitPathAux rest (ch :: acc)

def splitPath (p : String) : List String := splitPathAux p.data []

/-- Embeds `filepath.Dir` for clean relative paths: the path with its last
component removed, or `"."` when there is a single component. -/
def dirOf (p : String) : String :=
  let comps := splitPath p
  if comps.length ≤ 1 then "." else String.intercalate "/" comps.dropLast

/-- The chain of paths `MkdirAll` creates for `d`: every non-empty
component prefix of `d` (the last entry rebuilds `d`'s components). -/
def ancestorChain (d : String) : List String :=
  (List.range (splitPath d).length).map
    (fun i => String.intercalate "/" ((splitPath d).take (i + 1)))

def FS.isFile (fs : FS) (p : String) : Bool := (fs.files.lookup p).isSome

def FS.isDir (fs : FS) (p : String) : Bool := p = "." || fs.dirs.contains p

/-- Models `os.MkdirAll fs d`: fails when `d` or one of its ancestors is an
existing regular file, otherwise records `d` and all its ancestors as
directories. -/
def mkdirAll (fs : FS) (d : String) : Except String FS :=
  if (d :: ancestorChain d).any (fun q => fs.isFile q) then
    .error ("mkdir " ++ d ++ ": not a directory")
  else
    .ok { fs with dirs := d :: ancestorChain d ++ fs.dirs }

/-- Models `os.WriteFile fs p c`: fails when the parent directory does not
exist or `p` is an existing directory; otherwise the file now holds `c`. -/
def osWriteFile (fs : FS) (p : String) (c : String) : Except String FS :=
  if ¬ (fs.isDir (dirOf p)) then
    .error ("open " ++ p ++ ": no such file or directory")
  else if fs.dirs.contains p then
    .error ("open " ++ p ++ ": is a directory")
  else
    .ok { fs with files := (p, c) :: fs.files }

/-- Models `os.ReadFile fs p`. -/
def osReadFile (fs : FS) (p : String) : Except String String :=
  match fs.files.lookup p with
  | some c => .ok c
  | none => .error ("open " ++ p ++ ": no such file or directory")

def lastComponent (p : String) : String :=
  match (splitPath p).getLast? with
  | some s => s
  | none => p

/-- Whether `q` lies strictly below directory `d`. -/
def isUnderDir (d q : String) : Bool :=
  if d = "." then q ≠ "" else (d ++ "/").isPrefixOf q

/-- The path of `q` relative to directory `d` (for `q` under `d`). -/
def relTo (d q : String) : String :=
  if d = "." then q else q.drop (d.length + 1)

/-- Models `os.ReadDir fs d`: the immediate entry names of `d`, or an error
when `d` is not an existing directory.  Entry order is the enumeration
order of the model; the source documents no order guarantee. -/
def osReadDir (fs : FS) (d : String) : Except String (List String) :=
  if fs.isDir d then
    .ok (((fs.dirs ++ fs.files.map Prod.fst).filter
      (fun q => dirOf q = d || (d = "." && dirOf q = "."))).map lastComponent)
  else
    .error ("open " ++ d ++ ": no such file or directory")

/-- Models `filepath.Walk fs d` as used by the source: every descendant
path relative to `d`, excluding `d` itself, or an error when `d` does not
exist. -/
def osWalkDir (fs : FS) (d : String) : Except String (List String) :=
  if fs.isDir d then
    .ok (((fs.dirs ++ fs.files.map Prod.fst).filter
      (fun q => isUnderDir d q)).map (relTo d))
  else
    .error ("lstat " ++ d ++ ": no such file or directory")

/-! ## Tool handlers (from `main.go`)

Each Go handler has type `func(openai.ToolCall) openai.ChatCompletionMessage`
and acts on the OS through the calls modelled above; the embedding threads
the file-system state explicitly: `ToolCall → FS → FS × ChatCompletionMessage`. -/

def ToolHandler : Type := ToolCall → FS → FS × ChatCompletionMessage

/-- Embeds `createErrorResponse`. -/
def createErrorResponse (toolCallID : String) (errorMsg : String) :
    ChatCompletionMessage :=
  { role := "tool", content := errorMsg, toolCallID := toolCallID }

/-- Embeds `handleReadFile`. -/
def handleReadFile : ToolHandler := fun toolCall fs =>
  match unmarshalReadFileInput toolCall.function.arguments with
  | .error err => (fs, createErrorResponse toolCall.id ("Invalid arguments: " ++ err))
  | .ok input =>
    match osReadFile fs input.path with
    | .error err => (fs, createErrorResponse toolCall.id ("Error reading file: " ++ err))
    | .ok content =>
      (fs, { role := "tool", content := content, toolCallID := toolCall.id })

/-- Embeds `handleRecursiveListDir`. -/
def handleRecursiveListDir (toolCallID : String) (dirPath : String) (fs : FS) :
    FS × ChatCompletionMessage :=
  match osWalkDir fs dirPath with
  | .error err => (fs, createErrorResponse toolCallID ("Error walking directory: " ++ err))
  | .ok paths =>
    (fs, { role := "tool", content := String.join (paths.map (fun p => p ++ "\n")),
           toolCallID := toolCallID })

/-- Embeds `handleListDir`. -/
def handleListDir : ToolHandler := fun toolCall fs =>
  match unmarshalListDirInput toolCall.function.arguments with
  | .error err => (fs, createErrorResponse toolCall.id ("Invalid arguments: " ++ err))
  | .ok input =>
    if input.recursive then
      handleRecursiveListDir toolCall.id input.path fs
    else
      match osReadDir fs input.path with
      | .error err =>
        (fs, createErrorResponse toolCall.id ("Error reading directory: " ++ err))
      | .ok names =>
        (fs, { role := "tool", content := String.join (names.map (fun n => n ++ "\n")),
               toolCallID := toolCall.id })

/-- Embeds `handleWriteFile`: ensure the parent directory exists (skipping
`MkdirAll` when `filepath.Dir` is `"."`), then write the file. -/
def handleWriteFile : ToolHandler := fun toolCall fs =>
  match unmarshalWriteFileInput toolCall.function.arguments with
  | .error err => (fs, createErrorResponse toolCall.id ("Invalid arguments: " ++ err))
  | .ok input =>
    match (if dirOf input.path = "." then Except.ok fs else mkdirAll fs (dirOf input.path)) with
    | .error err => (fs, createErrorResponse toolCall.id ("Error creating directory: " ++ err))
    | .ok fs1 =>
      match osWriteFile fs1 input.path input.content with
      | .error err => (fs1, createErrorResponse toolCall.id ("Error writing file: " ++ err))
      | .ok fs2 =>
        (fs2, { role := "tool", content := "File written successfully.",
                toolCallID := toolCall.id })

/-- Embeds the `toolHandlers` map built by `setupTools` in `main.go`
(`read_file`, `list_dir`, `write_to_file`). -/
def baseToolHandlers (name : String) : Option ToolHandler :=
  if name = "read_file" then some handleReadFile
  else if name = "list_dir" then some handleListDir
  else if name = "write_to_file" then some handleWriteFile
  else none

/-- Embeds `processToolCalls`: dispatch each call with type tag
`"function"` through the handler map (unknown names yield an error
response), appending one response per dispatched call in call order; a
call with any other type tag is skipped. -/
def processToolCalls (handlers : String → Option ToolHandler) :
    List ToolCall → FS → FS × List ChatCompletionMessage
  | [], fs => (fs, [])
  | tc :: rest, fs =>
    if tc.type = "function" then
      match handlers tc.function.name with
      | some handler =>
        let r := handler tc fs
        let rr := processToolCalls handlers rest r.1
        (rr.1, r.2 :: rr.2)
      | none =>
        let rr := processToolCalls handlers rest fs
        (rr.1, createErrorResponse tc.id ("Unknown tool: " ++ tc.function.name) :: rr.2)
    else
      processToolCalls handlers rest fs

/-! ## Conversation engine (drive loop) -/

/-- Modelled from the spec: the Model Transport collaborator is "given a
list of turns and a set of declared tool schemas, returns exactly one
assistant turn or fails".  A transport value maps the index of the call
(the engine invokes the transport at most once per iteration, so the index
also identifies the iteration) and the current turn sequence to the
response; the index argument lets a single value model a stateful stub
such as the repository's mock client. -/
def Transport : Type := Nat → List ChatCompletionMessage → Except String ChatCompletionMessage

/-- Modelled from the spec: the iteration ceiling of the Conversation
Engine, "an iteration counter bounded by a fixed ceiling (policy value:
10)".  The constant lives in the revision of `main.go` that is not under
`src/` (only its tests are). -/
def MAX_ITERATIONS : Nat := 10

/-- Modelled from the spec: the error a failed transport call is wrapped
in, "wrapped with enough context to identify the iteration at which it
failed". -/
structure DriveError where
  iteration : Nat
  cause : String

/-- Modelled from the spec: what `drive` hands back — the accumulated turn
sequence, the number of transport calls made, and the error if a transport
call failed. -/
structure DriveResult where
  msgs : List ChatCompletionMessage
  calls : Nat
  err : Option DriveError

/-- Modelled from the spec: the body of `DriveConversation` (absent from
`src/`, described in spec §4.1), recursing on the remaining iteration
budget.  Each iteration sends the turn sequence to the transport; a
transport failure returns immediately with the accumulated sequence and an
iteration-stamped error; the assistant turn is appended; zero tool calls
stop the loop; otherwise every tool call is dispatched through
`processToolCalls` and the responses appended before looping. -/
def driveAux (transport : Transport) (handlers : String → Option ToolHandler) :
    Nat → Nat → FS → List ChatCompletionMessage → FS × DriveResult
  | 0, iter, fs, msgs => (fs, ⟨msgs, iter, none⟩)
  | fuel + 1, iter, fs, msgs =>
    match transport iter msgs with
    | .error e => (fs, ⟨msgs, iter + 1, some ⟨iter, e⟩⟩)
    | .ok assistantMsg =>
      let msgs1 := msgs ++ [assistantMsg]
      if assistantMsg.toolCalls.isEmpty then (fs, ⟨msgs1, iter + 1, none⟩)
      else
        let r := processToolCalls handlers assistantMsg.toolCalls fs
        driveAux transport handlers fuel (iter + 1) r.1 (msgs1 ++ r.2)

/-- Modelled from the spec: `DriveConversation(ctx, initial, logf)` —
"repeat up to a fixed ceiling of iterations"; reaching the ceiling "exits
normally, accumulated sequence is returned, no error". -/
def DriveConversation (transport : Transport) (handlers : String → Option ToolHandler)
    (fs : FS) (initial : List ChatCompletionMessage) : FS × DriveResult :=
  driveAux transport handlers MAX_ITERATIONS 0 fs initial

/-- Modelled from the spec: `RunAgentInput`, the argument structure of the
`run_agent` tool (absent from `src/`, named by its tests). -/
structure RunAgentInput where
  task : String

/-- Decoding of `RunAgentInput` by `json.Unmarshal` (same conventions as
the other inputs). -/
def unmarshalRunAgentInput : Option Json → Except String RunAgentInput
  | none => .error "invalid character looking for beginning of value"
  | some (.obj fields) =>
    match jsonField fields "task" with
    | some (.str s) => .ok ⟨s⟩
    | some .null => .ok ⟨""⟩
    | some _ => .error "cannot unmarshal field task"
    | none => .ok ⟨""⟩
  | some _ => .error "cannot unmarshal into RunAgentInput"

/-- The text of the last assistant turn of a sequence ("the final
assistant text of the nested engine's last turn"). -/
def lastAssistantText (msgs : List ChatCompletionMessage) : String :=
  match (msgs.filter (fun m => m.role = "assistant")).getLast? with
  | some m => m.content
  | none => ""

/-- Modelled from the spec: `handleRunAgent` (absent from `src/`, only its
tests are): "constructs one new Conversation Engine with a brand-new turn
sequence containing exactly one synthetic `user` turn equal to `task`,
drives it to completion exactly as in 4.1, and returns a tool-turn whose
text concatenates a fixed `Agent task: {task}` header with the final
assistant text of the nested engine's last turn"; a transport error during
the nested drive is surfaced as the tool-turn's error text.  The nested
engine dispatches through `nested`, the registry of the fresh agent. -/
def handleRunAgent (transport : Transport) (nested : String → Option ToolHandler) :
    ToolHandler := fun toolCall fs =>
  match unmarshalRunAgentInput toolCall.function.arguments with
  | .error err => (fs, createErrorResponse toolCall.id ("Invalid arguments: " ++ err))
  | .ok input =>
    let r := DriveConversation transport nested fs [{ role := "user", content := input.task }]
    match r.2.err with
    | some e => (r.1, createErrorResponse toolCall.id ("Error running agent: " ++ e.cause))
    | none =>
      (r.1, { role := "tool",
              content := "Agent task: " ++ input.task ++ "\n\n" ++ lastAssistantText r.2.msgs,
              toolCallID := toolCall.id })

/-- Modelled from the spec: the full registry of the revision with
delegation (`read_file`, `list_dir`, `write_to_file`, `run_agent`), cut
off at an explicit delegation depth so the recursive registry is a total
definition; depth `0` carries the three file tools only. -/
def toolHandlersAtDepth (transport : Transport) : Nat → String → Option ToolHandler
  | 0 => baseToolHandlers
  | d + 1 => fun name =>
    if name = "run_agent" then
      some (handleRunAgent transport (toolHandlersAtDepth transport d))
    else baseToolHandlers name

/-! ## Interactive input manager

`InputManager.Cleanup` in `main.go` runs `signal.Stop(im.sigChan)` followed
by `close(im.sigChan)`.  We model the state the two calls touch: whether
the signal subscription is active and whether the channel is open.  Go's
`close` on an already-closed channel is a runtime panic; the model returns
it as an error value. -/

inductive ChanState where
  | opened : ChanState
  | closed : ChanState

/-- The `InputManager` state visible to `Cleanup`. -/
structure InputManagerState where
  sigChan : ChanState
  notifyActive : Bool

/-- The state `NewInputManager` sets up: subscription active, channel open. -/
def newInputManagerState : InputManagerState := ⟨ChanState.opened, true⟩

/-- Models `signal.Stop`: deactivates the subscription; always succeeds,
also when already stopped. -/
def signalStop (s : InputManagerState) : InputManagerState :=
  { s with notifyActive := false }

/-- Models Go's `close` on a channel: a second close is a runtime panic
(`close of closed channel`), returned here as an error. -/
def closeChan : ChanState → Except String ChanState
  | ChanState.opened => .ok ChanState.closed
  | ChanState.closed => .error "close of closed channel"

/-- Embeds `InputManager.Cleanup`: `signal.Stop(im.sigChan)` then
`close(im.sigChan)`; a panic of the close surfaces as the error. -/
def Cleanup (s : InputManagerState) : Except String InputManagerState :=
  let s1 := signalStop s
  match closeChan s1.sigChan with
  | .ok c => .ok { s1 with sigChan := c }
  | .error e => .error e

/-! ## Signal listener (`handleSignals`)

Timestamps are naturals (nanoseconds on Go's monotonic clock);
`now.Sub(im.lastCtrlC) < 2*time.Second` becomes `now - last < debounceWindow`. -/

/-- The event the listener sends the line-reading path. -/
inductive SigEvent where
  | clearEv : SigEvent
  | exitEv : SigEvent

/-- `2 * time.Second` in nanoseconds, the debounce window of `handleSignals`. -/
def debounceWindow : Nat := 2000000000

/-- Embeds one loop body of `InputManager.handleSignals`: given the
arrival time of an interrupt and the recorded `lastCtrlC`, the classified
event and the new `lastCtrlC`.  On the exit path the source returns without
assigning `lastCtrlC`; on the clear path it records `now`. -/
def handleSignalStep (now : Nat) (lastCtrlC : Nat) : SigEvent × Nat :=
  if now - lastCtrlC < debounceWindow then (SigEvent.exitEv, lastCtrlC)
  else (SigEvent.clearEv, now)

/-- Embeds the `handleSignals` loop over a finite arrival-time trace: each
interrupt is classified by `handleSignalStep`; an `exit` event makes the
goroutine return, so later interrupts produce no event at all. -/
def handleSignals : List Nat → Nat → List SigEvent
  | [], _ => []
  | now :: rest, lastCtrlC =>
    if now - lastCtrlC < debounceWindow then [SigEvent.exitEv]
    else SigEvent.clearEv :: handleSignals rest now

/-! ## Outer read loop of `Run` -/

/-- Embeds Go's `unicode.IsSpace` on the characters `strings.TrimSpace`
strips (Latin-1 range plus NEL and NBSP). -/
def goIsSpace (c : Char) : Bool :=
  c = ' ' || c = '\t' || c = '\n' || c = '\x0B' || c = '\x0C' || c = '\r' ||
  c = '\u0085' || c = '\u00A0'

/-- Embeds `strings.TrimSpace`: strip leading and trailing white space. -/
def trimSpace (s : String) : String :=
  String.mk (((s.data.dropWhile goIsSpace).reverse.dropWhile goIsSpace).reverse)

/-- Embeds one iteration of the outer read loop of `Run` (`main.go`), with
the user line already acquired: a line whose `strings.TrimSpace` is empty
is skipped (`continue`) — no user turn is appended and the engine is not
invoked; any other line is appended as a `user` turn and the inner drive
loop runs on the extended sequence. -/
def runOuterIteration (transport : Transport) (handlers : String → Option ToolHandler)
    (fs : FS) (msgs : List ChatCompletionMessage) (userInput : String) : FS × DriveResult :=
  if trimSpace userInput = "" then (fs, ⟨msgs, 0, none⟩)
  else DriveConversation transport handlers fs
    (msgs ++ [{ role := "user", content := userInput }])

/-! ## Concrete fixtures used to instantiate the theorems -/

/-- A `read_file` tool call with id `i` and path `p`. -/
def readFileCall (i p : String) : ToolCall :=
  ⟨i, "function", ⟨"read_file", some (Json.obj [("path", Json.str p)])⟩⟩

/-- A `write_to_file` tool call with id `i`, path `p` and content `c`. -/
def writeFileCall (i p c : String) : ToolCall :=
  ⟨i, "function", ⟨"write_to_file", some (Json.obj [("path", Json.str p), ("content", Json.str c)])⟩⟩

/-- A `run_agent` tool call with id `i` and task `t`. -/
def runAgentCall (i t : String) : ToolCall :=
  ⟨i, "function", ⟨"run_agent", some (Json.obj [("task", Json.str t)])⟩⟩

/-- A transport stub that always answers with the same assistant turn
carrying one `read_file` tool call (the shape of
`TestAgent_DriveConversation_MaxIterations`). -/
def alwaysToolCallStub : Transport := fun _ _ =>
  Except.ok { role := "assistant", content := "",
              toolCalls := [readFileCall "call-1" "testdata/sample.txt"] }

/-- A transport stub that always answers with a plain assistant turn and
no tool calls. -/
def plainTextStub : Transport := fun _ _ =>
  Except.ok { role := "assistant", content := "Sub-agent completed the task" }

/-- A transport stub whose every call fails. -/
def failingStub : Transport := fun _ _ => Except.error "connection refused"

end Agent

namespace Agent

/-! ## Theorems -/

/-- C3: the source's `Cleanup` runs `close(im.sigChan)` unconditionally, so
while the first invocation succeeds, the second one closes an
already-closed channel — a runtime panic in Go, contradicting the claim
(and `TestInputManager_Cleanup`, which asserts that repeated `Cleanup`
calls do not panic). -/
theorem c3_cleanup_twice_panics :
    Cleanup newInputManagerState = Except.ok ⟨ChanState.closed, false⟩ ∧
    Cleanup ⟨ChanState.closed, false⟩ = Except.error "close of closed channel" :=
  ⟨rfl, rfl⟩

/-- C5: at any iteration of the drive loop whose transport call fails, the
engine returns at once — exactly one more transport call is made (no
retry), the error records the failing iteration index and the transport's
cause, and the turn sequence accumulated so far is handed back unchanged
alongside the error. -/
theorem c5_transport_error_immediate (transport : Transport)
    (handlers : String → Option ToolHandler) (fuel iter : Nat) (fs : FS)
    (msgs : List ChatCompletionMessage) (e : String)
    (h : transport iter msgs = Except.error e) :
    driveAux transport handlers (fuel + 1) iter fs msgs =
      (fs, ⟨msgs, iter + 1, some ⟨iter, e⟩⟩) := by
  simp [driveAux, h]

/-- Witness for C5: a stub failing at its first call makes
`DriveConversation` return the initial sequence, one transport call, and
an error stamped with iteration 0. -/
theorem c5_witness :
    failingStub 0 [{ role := "user", content := "Hello" }] =
      Except.error "connection refused" ∧
    driveAux failingStub baseToolHandlers (9 + 1) 0 FS.empty
        [{ role := "user", content := "Hello" }] =
      (FS.empty, ⟨[{ role := "user", content := "Hello" }], 0 + 1, some ⟨0, "connection refused"⟩⟩) :=
  ⟨rfl, c5_transport_error_immediate failingStub baseToolHandlers 9 0 FS.empty
    [{ role := "user", content := "Hello" }] "connection refused" rfl⟩

/-- C8: when the transport's first response is an assistant turn with zero
tool calls, the drive loop makes exactly one transport call, appends that
single turn to the sequence, and returns it with no error. -/
theorem c8_drive_single_call_no_tools (transport : Transport)
    (handlers : String → Option ToolHandler) (fs : FS)
    (initial : List ChatCompletionMessage) (m : ChatCompletionMessage)
    (hok : transport 0 initial = Except.ok m) (hempty : m.toolCalls = []) :
    DriveConversation transport handlers fs initial =
      (fs, ⟨initial ++ [m], 1, none⟩) := by
  show driveAux transport handlers (9 + 1) 0 fs initial = _
  simp [driveAux, hok, hempty]

/-- Witness for C8: the plain-text stub drives to completion in one call. -/
theorem c8_witness :
    plainTextStub 0 [{ role := "user", content := "Hello" }] =
      Except.ok { role := "assistant", content := "Sub-agent completed the task" } ∧
    ({ role := "assistant", content := "Sub-agent completed the task" } :
      ChatCompletionMessage).toolCalls = [] ∧
    DriveConversation plainTextStub baseToolHandlers FS.empty
        [{ role := "user", content := "Hello" }] =
      (FS.empty, ⟨[{ role := "user", content := "Hello" },
                   { role := "assistant", content := "Sub-agent completed the task" }], 1, none⟩) :=
  ⟨rfl, rfl, c8_drive_single_call_no_tools plainTextStub baseToolHandlers FS.empty
    [{ role := "user", content := "Hello" }]
    { role := "assistant", content := "Sub-agent completed the task" } rfl rfl⟩

/-- C6: classification of interrupts by the background listener.  With the
recorded timestamp at least a window behind (as the initial zero timestamp
always is at the first real interrupt), an interrupt is classified `clear`
and recorded; a second interrupt within the window is classified `exit`
with the timestamp left unchanged, and a second interrupt beyond the
window is again `clear` — so two interrupts more than the window apart are
each `clear`, and two less than the window apart make the second `exit`. -/
theorem c6_interrupt_debounce (lastCtrlC t1 t2 : Nat)
    (h1 : debounceWindow ≤ t1 - lastCtrlC) :
    (t2 - t1 < debounceWindow → handleSignalStep t2 t1 = (SigEvent.exitEv, t1)) ∧
    (debounceWindow ≤ t2 - t1 → handleSignalStep t2 t1 = (SigEvent.clearEv, t2)) ∧
    (debounceWindow < t2 - t1 →
      handleSignals [t1, t2] lastCtrlC = [SigEvent.clearEv, SigEvent.clearEv]) ∧
    (t2 - t1 < debounceWindow →
      handleSignals [t1, t2] lastCtrlC = [SigEvent.clearEv, SigEvent.exitEv]) := by
  refine ⟨fun h => ?_, fun h => ?_, fun h => ?_, fun h => ?_⟩
  · simp [handleSignalStep, h]
  · simp [handleSignalStep, Nat.not_lt.mpr h]
  · simp [handleSignals, Nat.not_lt.mpr h1, Nat.not_lt.mpr (Nat.le_of_lt h)]
  · simp [handleSignals, Nat.not_lt.mpr h1, h]

/-- Witness for C6: timestamps in nanoseconds; a first interrupt 3s after
the epoch, a second one 4s later (both `clear`), and the step equations at
a 1s gap (`exit`). -/
theorem c6_witness :
    debounceWindow ≤ 3000000000 - 0 ∧
    (7000000000 - 3000000000 < debounceWindow →
      handleSignalStep 7000000000 3000000000 = (SigEvent.exitEv, 3000000000)) ∧
    (debounceWindow ≤ 7000000000 - 3000000000 →
      handleSignalStep 7000000000 3000000000 = (SigEvent.clearEv, 7000000000)) ∧
    (debounceWindow < 7000000000 - 3000000000 →
      handleSignals [3000000000, 7000000000] 0 = [SigEvent.clearEv, SigEvent.clearEv]) ∧
    (7000000000 - 3000000000 < debounceWindow →
      handleSignals [3000000000, 7000000000] 0 = [SigEvent.clearEv, SigEvent.exitEv]) :=
  ⟨by decide, c6_interrupt_debounce 0 3000000000 7000000000 (by decide)⟩

/-- C9: the listener terminates on `exit`: in any finite interrupt trace
the `exit` event can only be the last emitted event (every interrupt after
it produces no event at all), and the exit path leaves the recorded
`lastCtrlC` timestamp unchanged. -/
theorem c9_exit_terminal :
    (∀ (ts : List Nat) (lastCtrlC : Nat) (pre post : List SigEvent),
      handleSignals ts lastCtrlC = pre ++ SigEvent.exitEv :: post → post = []) ∧
    (∀ now lastCtrlC : Nat, now - lastCtrlC < debounceWindow →
      handleSignalStep now lastCtrlC = (SigEvent.exitEv, lastCtrlC)) := by
  constructor
  · intro ts
    induction ts with
    | nil => intro lastCtrlC pre post h; simp [handleSignals] at h
    | cons t rest ih =>
      intro lastCtrlC pre post h
      by_cases hc : t - lastCtrlC < debounceWindow
      · simp only [handleSignals, if_pos hc] at h
        cases pre with
        | nil =>
          simp only [List.nil_append] at h
          exact (List.cons.injEq _ _ _ _ ▸ h).2.symm
        | cons p ps =>
          have hlen := congrArg List.length h
          simp [List.length_append] at hlen
      · simp only [handleSignals, if_neg hc] at h
        cases pre with
        | nil =>
          simp only [List.nil_append] at h
          exact absurd (List.cons.injEq _ _ _ _ ▸ h).1 (by simp)
        | cons p ps =>
          simp only [List.cons_append] at h
          exact ih t ps post (List.cons.injEq _ _ _ _ ▸ h).2
  · intro now lastCtrlC h
    simp [handleSignalStep, h]

/-- Witness for C9: the trace with one fast second interrupt ends in
`exit` and nothing follows; the step at that gap keeps the timestamp. -/
theorem c9_witness :
    handleSignals [3000000000, 3000000001] 0 =
      [SigEvent.clearEv] ++ SigEvent.exitEv :: ([] : List SigEvent) ∧
    ([] : List SigEvent) = [] ∧
    3000000001 - 3000000000 < debounceWindow ∧
    handleSignalStep 3000000001 3000000000 = (SigEvent.exitEv, 3000000000) :=
  ⟨rfl, c9_exit_terminal.1 [3000000000, 3000000001] 0 [SigEvent.clearEv] [] rfl,
   by decide, c9_exit_terminal.2 3000000001 3000000000 (by decide)⟩

/-- Helper: against a transport whose every response is an assistant turn
with at least one tool call, `driveAux` burns its whole iteration budget,
makes one transport call per budgeted iteration, and exits without error. -/
theorem driveAux_all_tool_calls (transport : Transport)
    (handlers : String → Option ToolHandler)
    (h : ∀ (n : Nat) (ms : List ChatCompletionMessage),
      ∃ m, transport n ms = Except.ok m ∧ m.toolCalls ≠ []) :
    ∀ (fuel iter : Nat) (fs : FS) (msgs : List ChatCompletionMessage),
      ((driveAux transport handlers fuel iter fs msgs).2).calls = iter + fuel ∧
      ((driveAux transport handlers fuel iter fs msgs).2).err = none := by
  intro fuel
  induction fuel with
  | zero => intro iter fs msgs; simp [driveAux]
  | succ fuel ih =>
    intro iter fs msgs
    obtain ⟨m, hok, hne⟩ := h iter msgs
    have hisEmpty : m.toolCalls.isEmpty = false := by
      cases hmt : m.toolCalls with
      | nil => exact absurd hmt hne
      | cons a l => rfl
    simp only [driveAux, hok, hisEmpty, Bool.false_eq_true, if_false]
    refine ⟨?_, (ih _ _ _).2⟩
    rw [(ih _ _ _).1]
    omega

/-- C2: against a transport stub whose every response is an assistant turn
carrying at least one tool call, the drive loop stops after exactly the
fixed ceiling of 10 transport calls and returns the accumulated sequence
normally, with no error. -/
theorem c2_drive_stops_at_ceiling (transport : Transport)
    (handlers : String → Option ToolHandler) (fs : FS)
    (initial : List ChatCompletionMessage)
    (h : ∀ (n : Nat) (ms : List ChatCompletionMessage),
      ∃ m, transport n ms = Except.ok m ∧ m.toolCalls ≠ []) :
    ((DriveConversation transport handlers fs initial).2).calls = 10 ∧
    ((DriveConversation transport handlers fs initial).2).err = none := by
  have := driveAux_all_tool_calls transport handlers h MAX_ITERATIONS 0 fs initial
  simpa [DriveConversation, MAX_ITERATIONS] using this

/-- Witness for C2: the always-tool-call stub drives the agent's file-tool
registry for exactly 10 transport calls and returns without error. -/
theorem c2_witness :
    (∀ (n : Nat) (ms : List ChatCompletionMessage),
      ∃ m, alwaysToolCallStub n ms = Except.ok m ∧ m.toolCalls ≠ []) ∧
    ((DriveConversation alwaysToolCallStub baseToolHandlers FS.empty
        [{ role := "user", content := "Test max iterations" }]).2).calls = 10 ∧
    ((DriveConversation alwaysToolCallStub baseToolHandlers FS.empty
        [{ role := "user", content := "Test max iterations" }]).2).err = none := by
  have h : ∀ (n : Nat) (ms : List ChatCompletionMessage),
      ∃ m, alwaysToolCallStub n ms = Except.ok m ∧ m.toolCalls ≠ [] :=
    fun n ms => ⟨_, rfl, by simp [alwaysToolCallStub]⟩
  exact ⟨h, c2_drive_stops_at_ceiling alwaysToolCallStub baseToolHandlers FS.empty
    [{ role := "user", content := "Test max iterations" }] h⟩

/-- Helper: a string all of whose characters are white space trims to the
empty string. -/
theorem trimSpace_of_all_space (s : String) (h : ∀ c ∈ s.data, goIsSpace c = true) :
    trimSpace s = "" := by
  unfold trimSpace
  have h1 : s.data.dropWhile goIsSpace = [] := List.dropWhile_eq_nil_iff.mpr h
  rw [h1]
  rfl

/-- C10: a user line consisting only of white space (or empty) is skipped
by the outer read loop: no user turn is appended, the engine makes no
transport call, and control returns to the prompt with the turn sequence
unchanged. -/
theorem c10_whitespace_input_skipped (transport : Transport)
    (handlers : String → Option ToolHandler) (fs : FS)
    (msgs : List ChatCompletionMessage) (userInput : String)
    (h : ∀ c ∈ userInput.data, goIsSpace c = true) :
    runOuterIteration transport handlers fs msgs userInput = (fs, ⟨msgs, 0, none⟩) := by
  simp [runOuterIteration, trimSpace_of_all_space userInput h]

/-- Witness for C10: a line of three spaces and a tab leaves any
conversation untouched. -/
theorem c10_witness :
    (∀ c ∈ ("   \t" : String).data, goIsSpace c = true) ∧
    runOuterIteration failingStub baseToolHandlers FS.empty
        [{ role := "user", content := "earlier" }] "   \t" =
      (FS.empty, ⟨[{ role := "user", content := "earlier" }], 0, none⟩) :=
  ⟨by decide, c10_whitespace_input_skipped failingStub baseToolHandlers FS.empty
    [{ role := "user", content := "earlier" }] "   \t" (by decide)⟩

/-- Helper: `handleReadFile` answers with role `tool` and the call's id on
every path (decode error, I/O error, success). -/
theorem handleReadFile_role_id (tc : ToolCall) (fs : FS) :
    ((handleReadFile tc fs).2).toolCallID = tc.id ∧
    ((handleReadFile tc fs).2).role = "tool" := by
  cases h : unmarshalReadFileInput tc.function.arguments with
  | error e => simp [handleReadFile, h, createErrorResponse]
  | ok input =>
    cases h2 : osReadFile fs input.path with
    | error e => simp [handleReadFile, h, h2, createErrorResponse]
    | ok c => simp [handleReadFile, h, h2]

/-- Helper: `handleListDir` answers with role `tool` and the call's id on
every path (decode error, recursive and non-recursive listing, I/O error). -/
theorem handleListDir_role_id (tc : ToolCall) (fs : FS) :
    ((handleListDir tc fs).2).toolCallID = tc.id ∧
    ((handleListDir tc fs).2).role = "tool" := by
  cases h : unmarshalListDirInput tc.function.arguments with
  | error e => simp [handleListDir, h, createErrorResponse]
  | ok input =>
    by_cases hr : input.recursive
    · cases h2 : osWalkDir fs input.path with
      | error e => simp [handleListDir, handleRecursiveListDir, h, hr, h2, createErrorResponse]
      | ok paths => simp [handleListDir, handleRecursiveListDir, h, hr, h2]
    · cases h2 : osReadDir fs input.path with
      | error e => simp [handleListDir, h, hr, h2, createErrorResponse]
      | ok names => simp [handleListDir, h, hr, h2]

/-- Helper: `handleWriteFile` answers with role `tool` and the call's id
on every path (decode error, directory-creation error, write error,
success). -/
theorem handleWriteFile_role_id (tc : ToolCall) (fs : FS) :
    ((handleWriteFile tc fs).2).toolCallID = tc.id ∧
    ((handleWriteFile tc fs).2).role = "tool" := by
  cases h : unmarshalWriteFileInput tc.function.arguments with
  | error e => simp [handleWriteFile, h, createErrorResponse]
  | ok input =>
    cases h2 : (if dirOf input.path = "." then Except.ok fs else mkdirAll fs (dirOf input.path)) with
    | error e => simp [handleWriteFile, h, h2, createErrorResponse]
    | ok fs1 =>
      cases h3 : osWriteFile fs1 input.path input.content with
      | error e => simp [handleWriteFile, h, h2, h3, createErrorResponse]
      | ok fs2 => simp [handleWriteFile, h, h2, h3]

/-- Helper: every handler registered in the source's tool registry answers
with role `tool` and the dispatched call's id, whatever the file-system
state. -/
theorem baseToolHandlers_role_id (name : String) (handler : ToolHandler)
    (h : baseToolHandlers name = some handler) (tc : ToolCall) (fs : FS) :
    ((handler tc fs).2).toolCallID = tc.id ∧ ((handler tc fs).2).role = "tool" := by
  unfold baseToolHandlers at h
  split_ifs at h
  · cases h; exact handleReadFile_role_id tc fs
  · cases h; exact handleListDir_role_id tc fs
  · cases h; exact handleWriteFile_role_id tc fs

/-- C1 (amended): dispatching the tool calls of one assistant turn, when
every call carries the type tag `"function"`, yields exactly one
tool-role turn per call, in the order of the calls, each carrying the id
of the call that produced it unchanged — on every path: registered tool
(success, domain error, decode error) and unknown tool alike.  (A call
with any other type tag is skipped by the source and yields no turn; see
the counterexample.) -/
theorem c1_processToolCalls_one_turn_per_function_call (calls : List ToolCall) :
    ∀ (fs : FS), (∀ c ∈ calls, c.type = "function") →
    ((processToolCalls baseToolHandlers calls fs).2).map
        (fun m => m.toolCallID) = calls.map (fun c => c.id) ∧
    ∀ m ∈ (processToolCalls baseToolHandlers calls fs).2, m.role = "tool" := by
  induction calls with
  | nil => intro fs hf; simp [processToolCalls]
  | cons tc rest ih =>
    intro fs hf
    have htc : tc.type = "function" := hf tc (by simp)
    have hrest : ∀ c ∈ rest, c.type = "function" := fun c hc => hf c (by simp [hc])
    cases hh : baseToolHandlers tc.function.name with
    | some handler =>
      have hri := baseToolHandlers_role_id _ _ hh tc fs
      obtain ⟨ihmap, ihrole⟩ := ih (handler tc fs).1 hrest
      simp only [processToolCalls, htc, if_pos, hh]
      constructor
      · simp [ihmap, hri.1]
      · intro m hm
        rcases List.mem_cons.mp hm with hm | hm
        · exact hm ▸ hri.2
        · exact ihrole m hm
    | none =>
      obtain ⟨ihmap, ihrole⟩ := ih fs hrest
      simp only [processToolCalls, htc, if_pos, hh]
      constructor
      · simp [ihmap, createErrorResponse]
      · intro m hm
        rcases List.mem_cons.mp hm with hm | hm
        · simp [hm, createErrorResponse]
        · exact ihrole m hm

/-- Counterexample for C1 as frozen: a list with one tool call whose type
tag is not `"function"` (here `"custom"`) is dispatched to zero tool
turns, not one — the source's `processToolCalls` silently skips any call
whose type differs from `"function"`. -/
theorem c1_counterexample_nonfunction_call_dropped :
    (processToolCalls baseToolHandlers
      [⟨"call-1", "custom", ⟨"read_file", some (Json.obj [("path", Json.str "x")])⟩⟩]
      FS.empty).2 = [] := by
  rfl

/-- Witness for C1: two function-typed calls — one for an unregistered
tool, one well-formed read — yield exactly their two ids in order, both
tool turns. -/
theorem c1_witness :
    (∀ c ∈ [⟨"call-unknown", "function", ⟨"unknown_tool", some (Json.obj [])⟩⟩,
            readFileCall "call-1" "testdata/sample.txt"], ToolCall.type c = "function") ∧
    ((processToolCalls baseToolHandlers
        [⟨"call-unknown", "function", ⟨"unknown_tool", some (Json.obj [])⟩⟩,
         readFileCall "call-1" "testdata/sample.txt"] FS.empty).2).map
        (fun m => m.toolCallID) =
      List.map (fun c => ToolCall.id c)
        [⟨"call-unknown", "function", ⟨"unknown_tool", some (Json.obj [])⟩⟩,
         readFileCall "call-1" "testdata/sample.txt"] ∧
    ∀ m ∈ (processToolCalls baseToolHandlers
        [⟨"call-unknown", "function", ⟨"unknown_tool", some (Json.obj [])⟩⟩,
         readFileCall "call-1" "testdata/sample.txt"] FS.empty).2, m.role = "tool" := by
  have h := c1_processToolCalls_one_turn_per_function_call
    [⟨"call-unknown", "function", ⟨"unknown_tool", some (Json.obj [])⟩⟩,
     readFileCall "call-1" "testdata/sample.txt"] FS.empty (by simp [readFileCall])
  exact ⟨by simp [readFileCall], h.1, h.2⟩

/-- C7: writing content `c` to path `p` through the write tool succeeds —
also when `p`'s parent directory does not yet exist, in which case the
missing directories are created — answering with the fixed success text,
and a subsequent read of `p` through the read tool yields exactly `c`.
The hypotheses state that the file system lets the write succeed: neither
`p`'s parent chain nor `p` itself collides with an existing file or
directory. -/
theorem c7_write_read_roundtrip (fs : FS) (p c i1 i2 : String)
    (hnf : ∀ q ∈ dirOf p :: ancestorChain (dirOf p), fs.isFile q = false)
    (hnd : p ∉ fs.dirs) (hne : p ≠ dirOf p) (hnanc : p ∉ ancestorChain (dirOf p)) :
    ((handleWriteFile (writeFileCall i1 p c) fs).2).content = "File written successfully." ∧
    ((handleWriteFile (writeFileCall i1 p c) fs).2).role = "tool" ∧
    ((handleWriteFile (writeFileCall i1 p c) fs).2).toolCallID = i1 ∧
    (dirOf p ≠ "." →
      ((handleWriteFile (writeFileCall i1 p c) fs).1).dirs.contains (dirOf p) = true) ∧
    ((handleReadFile (readFileCall i2 p)
        ((handleWriteFile (writeFileCall i1 p c) fs).1)).2).content = c ∧
    ((handleReadFile (readFileCall i2 p)
        ((handleWriteFile (writeFileCall i1 p c) fs).1)).2).role = "tool" := by
  have harg : unmarshalWriteFileInput
      (some (Json.obj [("path", Json.str p), ("content", Json.str c)])) =
      Except.ok ⟨p, c⟩ := rfl
  have hargr : unmarshalReadFileInput (some (Json.obj [("path", Json.str p)])) =
      Except.ok ⟨p⟩ := rfl
  by_cases hdot : dirOf p = "."
  · have hw : osWriteFile fs p c = Except.ok { fs with files := (p, c) :: fs.files } := by
      simp [osWriteFile, FS.isDir, hdot, hnd]
    have hwf : handleWriteFile (writeFileCall i1 p c) fs =
        ({ fs with files := (p, c) :: fs.files },
         { role := "tool", content := "File written successfully.", toolCallID := i1 }) := by
      simp [handleWriteFile, writeFileCall, harg, hdot, hw]
    rw [hwf]
    refine ⟨rfl, rfl, rfl, fun hcon => absurd hdot hcon, ?_, ?_⟩ <;>
      simp [handleReadFile, readFileCall, hargr, osReadFile]
  · have hany : (dirOf p :: ancestorChain (dirOf p)).any (fun q => fs.isFile q) = false :=
      List.any_eq_false.mpr (fun x hx => by simp [hnf x hx])
    have hmk1 : mkdirAll fs (dirOf p) =
        Except.ok { fs with dirs := dirOf p :: (ancestorChain (dirOf p) ++ fs.dirs) } := by
      simp [mkdirAll, hany]
    have hisdir :
        FS.isDir { fs with dirs := dirOf p :: (ancestorChain (dirOf p) ++ fs.dirs) }
          (dirOf p) = true := by
      simp [FS.isDir]
    have hcont : (dirOf p :: (ancestorChain (dirOf p) ++ fs.dirs)).contains p = false := by
      simp [hne, hnanc, hnd]
    have hw : osWriteFile { fs with dirs := dirOf p :: (ancestorChain (dirOf p) ++ fs.dirs) } p c =
        Except.ok { fs with dirs := dirOf p :: (ancestorChain (dirOf p) ++ fs.dirs),
                            files := (p, c) :: fs.files } := by
      simp only [osWriteFile, hisdir, hcont]
      simp
    have hwf : handleWriteFile (writeFileCall i1 p c) fs =
        ({ fs with dirs := dirOf p :: (ancestorChain (dirOf p) ++ fs.dirs),
                   files := (p, c) :: fs.files },
         { role := "tool", content := "File written successfully.", toolCallID := i1 }) := by
      simp [handleWriteFile, writeFileCall, harg, hdot, hmk1, hw]
    rw [hwf]
    refine ⟨rfl, rfl, rfl, fun _ => by simp, ?_, ?_⟩ <;>
      simp [handleReadFile, readFileCall, hargr, osReadFile]

/-- Witness for C7: writing into the not-yet-existing directory
`testdata/new_dir` of the empty tree succeeds, creates the directory, and
reading the file back yields the written content. -/
theorem c7_witness :
    (∀ q ∈ dirOf "testdata/new_dir/test_file.txt" ::
        ancestorChain (dirOf "testdata/new_dir/test_file.txt"),
      FS.empty.isFile q = false) ∧
    ("testdata/new_dir/test_file.txt" ∉ FS.empty.dirs) ∧
    ("testdata/new_dir/test_file.txt" ≠ dirOf "testdata/new_dir/test_file.txt") ∧
    ("testdata/new_dir/test_file.txt" ∉
        ancestorChain (dirOf "testdata/new_dir/test_file.txt")) ∧
    ((handleWriteFile (writeFileCall "test-call-8" "testdata/new_dir/test_file.txt"
        "content in new directory") FS.empty).2).content = "File written successfully." ∧
    ((handleWriteFile (writeFileCall "test-call-8" "testdata/new_dir/test_file.txt"
        "content in new directory") FS.empty).2).role = "tool" ∧
    ((handleWriteFile (writeFileCall "test-call-8" "testdata/new_dir/test_file.txt"
        "content in new directory") FS.empty).2).toolCallID = "test-call-8" ∧
    (dirOf "testdata/new_dir/test_file.txt" ≠ "." →
      ((handleWriteFile (writeFileCall "test-call-8" "testdata/new_dir/test_file.txt"
          "content in new directory") FS.empty).1).dirs.contains
        (dirOf "testdata/new_dir/test_file.txt") = true) ∧
    ((handleReadFile (readFileCall "test-call-9" "testdata/new_dir/test_file.txt")
        ((handleWriteFile (writeFileCall "test-call-8" "testdata/new_dir/test_file.txt"
          "content in new directory") FS.empty).1)).2).content = "content in new directory" ∧
    ((handleReadFile (readFileCall "test-call-9" "testdata/new_dir/test_file.txt")
        ((handleWriteFile (writeFileCall "test-call-8" "testdata/new_dir/test_file.txt"
          "content in new directory") FS.empty).1)).2).role = "tool" := by
  have h := c7_write_read_roundtrip FS.empty "testdata/new_dir/test_file.txt"
    "content in new directory" "test-call-8" "test-call-9"
    (by decide) (by decide) (by decide) (by decide)
  exact ⟨by decide, by decide, by decide, by decide, h.1, h.2.1, h.2.2.1, h.2.2.2.1,
    h.2.2.2.2.1, h.2.2.2.2.2⟩

/-- C4: dispatching the `run_agent` tool with task text `t` constructs one
nested engine seeded with exactly the single user turn `t`, drives it to
completion, and produces a single tool turn whose text is the fixed
`Agent task: {task}` header rendered with `t` followed by the nested
engine's final assistant text, carrying the call's id unchanged; the
parent's sequence receives exactly that one tool turn — the nested
engine's internal turns never appear in the parent dispatch result. -/
theorem c4_run_agent_delegation (transport : Transport) (fs : FS) (t i : String)
    (hok : ((DriveConversation transport baseToolHandlers fs
      [{ role := "user", content := t }]).2).err = none) :
    (handleRunAgent transport baseToolHandlers (runAgentCall i t) fs).2 =
      { role := "tool",
        content := "Agent task: " ++ t ++ "\n\n" ++
          lastAssistantText ((DriveConversation transport baseToolHandlers fs
            [{ role := "user", content := t }]).2).msgs,
        toolCallID := i } ∧
    (processToolCalls (toolHandlersAtDepth transport 1) [runAgentCall i t] fs).2 =
      [(handleRunAgent transport baseToolHandlers (runAgentCall i t) fs).2] := by
  have hargt : unmarshalRunAgentInput (some (Json.obj [("task", Json.str t)])) =
      Except.ok ⟨t⟩ := rfl
  constructor
  · simp [handleRunAgent, runAgentCall, hargt, hok]
  · simp [processToolCalls, toolHandlersAtDepth, runAgentCall]

/-- Witness for C4: with a stub whose nested drive finishes in one
assistant turn, delegation of a concrete task yields the single expected
tool turn. -/
theorem c4_witness :
    ((DriveConversation plainTextStub baseToolHandlers FS.empty
      [{ role := "user", content := "Test sub-agent task" }]).2).err = none ∧
    (handleRunAgent plainTextStub baseToolHandlers
        (runAgentCall "run-agent-call" "Test sub-agent task") FS.empty).2 =
      { role := "tool",
        content := "Agent task: " ++ "Test sub-agent task" ++ "\n\n" ++
          lastAssistantText ((DriveConversation plainTextStub baseToolHandlers FS.empty
            [{ role := "user", content := "Test sub-agent task" }]).2).msgs,
        toolCallID := "run-agent-call" } ∧
    (processToolCalls (toolHandlersAtDepth plainTextStub 1)
        [runAgentCall "run-agent-call" "Test sub-agent task"] FS.empty).2 =
      [(handleRunAgent plainTextStub baseToolHandlers
          (runAgentCall "run-agent-call" "Test sub-agent task") FS.empty).2] := by
  have h := c4_run_agent_delegation plainTextStub FS.empty "Test sub-agent task"
    "run-agent-call" rfl
  exact ⟨rfl, h.1, h.2⟩

end Agent
